import Mathlib

/-!
Shallow embedding of the real-time socket client of the helpdesk dashboard
(src/src/hooks/useSocket.tsx and the room-based dialect in src/unnamed/part_001),
together with theorems settling the specification claims about it.

Each inbound-event handler of the SocketProvider becomes a pure function from
the previous collection value to the next one; the connection lifecycle becomes
an explicit state machine whose transitions mirror the handler bodies; the
fallible credential exchange becomes an Except-valued function.
-/

namespace Helpdesk

/-- Message shape of the room-based dialect (interface Message). The
created_at timestamp string is modelled by its millisecond value, which is
what the sort comparator new Date(x).getTime() extracts from it. -/
structure Message where
  message_id : String
  room_id : String
  content : String
  content_type : String
  sender_user_id : String
  sender_display_name : String
  is_edited : Bool
  is_deleted : Bool
  created_at : Nat
deriving DecidableEq, Repr

/-- Room shape of the room-based dialect (interface Room). -/
structure Room where
  room_id : String
  name : String
  description : Option String
  room_type : String
  member_count : Nat
  last_message_at : Option String
deriving DecidableEq, Repr

/-- OnlineUser shape (interface OnlineUser). -/
structure OnlineUser where
  user_id : String
  display_name : Option String
deriving DecidableEq, Repr

/-- Comparator of the message push handler: sort((a, b) =>
new Date(a.created_at).getTime() - new Date(b.created_at).getTime()).
A negative or zero difference keeps a before b, so the effective ordering
relation is less-or-equal on the timestamp values. -/
def msgLe (a b : Message) : Bool :=
  a.created_at ≤ b.created_at

/-- Handler for the message event in src/unnamed/part_001 lines 517 to 525:
setMessages takes the previous list, appends the pushed message and sorts the
result by created_at with the stable Array.prototype.sort. -/
def onMessage (prev : List Message) (data : Message) : List Message :=
  (prev ++ [data]).mergeSort msgLe

/-- Handler for the message event in src/src/hooks/useSocket.tsx lines 149 to
152: setMessages(prev => [...prev, data]) with no sort. -/
def onMessagePush (prev : List Message) (data : Message) : List Message :=
  prev ++ [data]

/-- Handler for the messages history-batch event (part_001 lines 511 to 514 and
useSocket.tsx lines 144 to 147): setMessages(data.messages || []) discards the
previous collection entirely. -/
def onMessages (_prev : List Message) (batch : List Message) : List Message :=
  batch

/-- Derived per-room view of the message collection: the timeline filtered to
one room id, as the UI consumes it. -/
def roomView (msgs : List Message) (room : String) : List Message :=
  msgs.filter (fun m => m.room_id == room)

/-- The per-view ordering invariant: ascending created_at. -/
def SortedByCreatedAt (l : List Message) : Prop :=
  l.Pairwise (fun a b => a.created_at ≤ b.created_at)

/-- Handler for the user_online presence delta (useSocket.tsx lines 154 to 163,
part_001 lines 534 to 543): insert the payload only when no entry with the same
user_id is already present. -/
def user_online (prev : List OnlineUser) (data : OnlineUser) : List OnlineUser :=
  match prev.find? (fun u => u.user_id == data.user_id) with
  | some _ => prev
  | none => prev ++ [data]

/-- Handler for the user_offline presence delta (useSocket.tsx lines 165 to
168, part_001 lines 545 to 548): filter out the entry with the given user_id. -/
def user_offline (prev : List OnlineUser) (uid : String) : List OnlineUser :=
  prev.filter (fun u => u.user_id != uid)

/-- A presence delta event. -/
inductive PresenceEvent where
  | online (data : OnlineUser)
  | offline (user_id : String)
deriving DecidableEq, Repr

/-- Apply one presence delta to the presence set. -/
def applyPresence (prev : List OnlineUser) : PresenceEvent → List OnlineUser
  | PresenceEvent.online d => user_online prev d
  | PresenceEvent.offline uid => user_offline prev uid

/-- Apply a sequence of presence deltas in arrival order. -/
def applyPresenceEvents (prev : List OnlineUser) (evs : List PresenceEvent) : List OnlineUser :=
  evs.foldl applyPresence prev

/-- No user_id appears twice in the presence set. -/
def presenceNodup (l : List OnlineUser) : Prop :=
  l.Pairwise (fun a b => a.user_id ≠ b.user_id)

end Helpdesk

namespace Helpdesk

/-- Fixed delay of the manual reconnect timer (part_001 line 486: setTimeout
with 3000). -/
def reconnectDelayMs : Nat := 3000

/-- Connection lifecycle state of the SocketProvider in the part_001 room
dialect: whether a socket object exists (setSocket non-null), whether the
transport is connected, the isConnecting flag, the pending manual reconnect
timer (reconnectTimeoutRef with its delay), a count of timer firings that
invoked newSocket.connect(), and a count of transports opened by io(...). -/
structure SessionState where
  socketExists : Bool
  socketConnected : Bool
  isConnecting : Bool
  reconnectTimeout : Option Nat
  reconnectAttempts : Nat
  transportsOpened : Nat
deriving DecidableEq, Repr

/-- State at provider mount: no socket, nothing pending. -/
def initialSessionState : SessionState :=
  { socketExists := false, socketConnected := false, isConnecting := false,
    reconnectTimeout := none, reconnectAttempts := 0, transportsOpened := 0 }

/-- Lifecycle events of the part_001 session: a call to connect, the transport
connect event, the transport disconnect event with its reason string, a call to
disconnect, and the firing of a pending reconnect timer. -/
inductive SessionEvent where
  | connectCall
  | connectSucceeds
  | transportDisconnect (reason : String)
  | disconnectCall
  | reconnectTimerFires
deriving DecidableEq, Repr

/-- One step of the part_001 session lifecycle, transition per transition from
the source: connect (lines 431 to 451) returns at once when the socket is
connected or isConnecting, else sets isConnecting and opens a transport; the
connect handler (lines 454 to 465) sets connected, clears isConnecting and
clears the reconnect timer; the disconnect handler (lines 475 to 488) clears
connected and, for any reason other than io client disconnect, stores a fresh
3000 ms timer in the ref; disconnect (lines 564 to 574) tears the socket down
and resets the flags but leaves the timer ref untouched; a firing timer calls
newSocket.connect(), one reconnection attempt. -/
def sessionStep (s : SessionState) : SessionEvent → SessionState
  | SessionEvent.connectCall =>
      if s.socketConnected || s.isConnecting then s
      else { s with socketExists := true, isConnecting := true,
                    transportsOpened := s.transportsOpened + 1 }
  | SessionEvent.connectSucceeds =>
      { s with socketConnected := true, isConnecting := false,
               reconnectTimeout := none }
  | SessionEvent.transportDisconnect reason =>
      if reason != "io client disconnect" then
        { s with socketConnected := false, reconnectTimeout := some reconnectDelayMs }
      else
        { s with socketConnected := false }
  | SessionEvent.disconnectCall =>
      if s.socketExists then
        { s with socketExists := false, socketConnected := false, isConnecting := false }
      else s
  | SessionEvent.reconnectTimerFires =>
      match s.reconnectTimeout with
      | some _ => { s with reconnectTimeout := none,
                           reconnectAttempts := s.reconnectAttempts + 1 }
      | none => s

/-- Run a sequence of lifecycle events. -/
def sessionRun (s : SessionState) (evs : List SessionEvent) : SessionState :=
  evs.foldl sessionStep s

/-- State of the useSocket.tsx variant relevant to connectWithApiKey. -/
structure RoomHookState where
  socketExists : Bool
  socketConnected : Bool
  isConnecting : Bool
  transportsOpened : Nat
deriving DecidableEq, Repr

/-- connectWithApiKey of src/src/hooks/useSocket.tsx lines 83 to 104: returns
at once when the socket is already connected or the apiKey is falsy (empty);
otherwise it opens a new transport via io(...). It does not consult and does
not set the isConnecting flag; that flag is managed by its caller
autoAuthenticate. -/
def connectWithApiKey (s : RoomHookState) (apiKey : String) : RoomHookState :=
  if s.socketConnected || apiKey == "" then s
  else { s with socketExists := true, transportsOpened := s.transportsOpened + 1 }

/-- Failure modes of the credential exchange, one per throw site. -/
inductive AuthError where
  | masterKeyMissing
  | authenticationFailed
  | noApiKeyReceived
deriving DecidableEq, Repr

/-- Outcome of the POST to /auth/user-login as the client observes it:
response.ok (status in the 2xx range) and the api_key field of the decoded
JSON body, absent when the body lacks it. -/
structure LoginResponse where
  ok : Bool
  api_key : Option String
deriving DecidableEq, Repr

/-- JavaScript truthiness of an optional string: undefined and the empty
string are falsy. -/
def jsTruthy : Option String → Bool
  | none => false
  | some s => !(s == "")

/-- authenticate of src/unnamed/part_001 lines 403 to 429: throws when the
master key is unset, throws Authentication failed when response.ok is false,
and otherwise stores and returns data.api_key as is, with no check that the
field is present. -/
def authenticate (masterKey : Option String) (resp : LoginResponse) :
    Except AuthError (Option String) :=
  match masterKey with
  | none => Except.error AuthError.masterKeyMissing
  | some _ =>
    if resp.ok then Except.ok resp.api_key
    else Except.error AuthError.authenticationFailed

/-- The credential-exchange path of autoAuthenticate in
src/src/hooks/useSocket.tsx lines 190 to 222 (taken when no stored key
exists): throws when the master key is unset, throws Authentication failed on
a non-ok response, and throws No API key received when the api_key field of
the body is falsy; otherwise the issued key is stored and used. -/
def autoAuthenticateExchange (masterKey : Option String) (resp : LoginResponse) :
    Except AuthError String :=
  match masterKey with
  | none => Except.error AuthError.masterKeyMissing
  | some _ =>
    if resp.ok then
      if jsTruthy resp.api_key then Except.ok (resp.api_key.getD "")
      else Except.error AuthError.noApiKeyReceived
    else Except.error AuthError.authenticationFailed

/-- Whether an Except value is a success. -/
def isOkE {ε α : Type} : Except ε α → Bool
  | Except.ok _ => true
  | Except.error _ => false

/-- Observable outcome of one outbound command: the event name emitted to the
server, if any, and whether toast.error was shown to the caller. -/
structure OpResult where
  emitted : Option String
  errorReported : Bool
deriving DecidableEq, Repr

/-- sendMessage of the room dialect (part_001 lines 576 to 592, useSocket.tsx
lines 255 to 272): when not connected, report and emit nothing; else emit
send_message. -/
def sendMessage (connected : Bool) : OpResult :=
  if !connected then { emitted := none, errorReported := true }
  else { emitted := some "send_message", errorReported := false }

/-- joinRoom of the room dialect (part_001 lines 594 to 601, useSocket.tsx
lines 274 to 281). -/
def joinRoom (connected : Bool) : OpResult :=
  if !connected then { emitted := none, errorReported := true }
  else { emitted := some "join_room", errorReported := false }

/-- leaveRoom of the room dialect (part_001 lines 603 to 610, useSocket.tsx
lines 283 to 290). -/
def leaveRoom (connected : Bool) : OpResult :=
  if !connected then { emitted := none, errorReported := true }
  else { emitted := some "leave_room", errorReported := false }

/-- getMessages of the room dialect (part_001 lines 612 to 619, useSocket.tsx
lines 292 to 299). -/
def getMessages (connected : Bool) : OpResult :=
  if !connected then { emitted := none, errorReported := true }
  else { emitted := some "get_messages", errorReported := false }

/-- getRooms of the room dialect (part_001 lines 621 to 628, useSocket.tsx
lines 301 to 308). -/
def getRooms (connected : Bool) : OpResult :=
  if !connected then { emitted := none, errorReported := true }
  else { emitted := some "get_rooms", errorReported := false }

/-- getOnlineUsers of the room dialect (part_001 lines 630 to 637). -/
def getOnlineUsers (connected : Bool) : OpResult :=
  if !connected then { emitted := none, errorReported := true }
  else { emitted := some "online_users", errorReported := false }

/-- getMessages of the flat dialect (part_001 lines 220 to 229): the report on
rejection is gated by a showError parameter whose source default is true. -/
def getMessagesFlat (connected : Bool) (showError : Bool) : OpResult :=
  if !connected then { emitted := none, errorReported := showError }
  else { emitted := some "get_messages", errorReported := false }

/-- getConversations of the flat dialect (part_001 lines 231 to 240): the
report on rejection is gated by a showError parameter whose source default is
false, so a rejected call with the default shows nothing. -/
def getConversations (connected : Bool) (showError : Bool) : OpResult :=
  if !connected then { emitted := none, errorReported := showError }
  else { emitted := some "get_conversations", errorReported := false }

/-- getOnlineUsers of the flat dialect (part_001 lines 242 to 251): the report
on rejection is gated by a showError parameter whose source default is false. -/
def getOnlineUsersFlat (connected : Bool) (showError : Bool) : OpResult :=
  if !connected then { emitted := none, errorReported := showError }
  else { emitted := some "get_online_users", errorReported := false }

/-- Fixed period of the keepalive probe (setInterval with 30000). -/
def pingIntervalDelayMs : Nat := 30000

/-- What the provider renders as far as the ping effect can see: the identity
of the socket object held in state (none when null) and the value of
socket.connected at the moment the effect would run. -/
structure RenderSnap where
  sockId : Option Nat
  sockConn : Bool
deriving DecidableEq, Repr

/-- The guard of the ping effect body (part_001 lines 652 to 662, useSocket.tsx
equivalent): the 30 second interval is created only when a socket exists and
socket.connected is true at the moment the effect runs. -/
def pingEffectRun (sockId : Option Nat) (sockConn : Bool) : Bool :=
  sockId.isSome && sockConn

/-- The body of one interval tick: emit ping only if socket.connected holds at
tick time. -/
def pingTickEmits (sockConn : Bool) : Bool := sockConn

/-- Whether a ping interval is live after processing a render sequence. The
effect dependency array is [socket], so React reruns cleanup plus effect
exactly when the socket identity changes (and on mount); on a rerun the old
interval is cleared and a new one is created per the pingEffectRun guard; on
any other render the interval state is untouched. -/
def pingAfterAux : Bool → Option (Option Nat) → List RenderSnap → Bool
  | acc, _, [] => acc
  | acc, prev, r :: rs =>
    let rerun : Bool :=
      match prev with
      | none => true
      | some pid => pid != r.sockId
    pingAfterAux (if rerun then pingEffectRun r.sockId r.sockConn else acc) (some r.sockId) rs

/-- Interval liveness after a full render sequence starting at mount. -/
def pingIntervalAfter (rs : List RenderSnap) : Bool :=
  pingAfterAux false none rs

/-- The context value the provider publishes, data fields of interface
SocketContextType (the function members act on this same state and are
modelled by the operation functions above). -/
structure SocketContextType where
  socket : Option Nat
  isConnected : Bool
  isConnecting : Bool
  messages : List Message
  rooms : List Room
  onlineUsers : List OnlineUser
  currentRoom : Option String
deriving Repr

/-- useSocket of src/src/hooks/useSocket.tsx lines 345 to 351 and part_001
lines 690 to 696: reading the context outside a provider yields undefined, in
which case the hook throws instead of returning it. -/
def useSocket (context : Option SocketContextType) : Except String SocketContextType :=
  match context with
  | none => Except.error "useSocket must be used within a SocketProvider"
  | some c => Except.ok c

/-- Concrete message with timestamp 5, used in concrete evaluations. -/
def m1 : Message :=
  { message_id := "m1", room_id := "r1", content := "hello", content_type := "text",
    sender_user_id := "u1", sender_display_name := "U1",
    is_edited := false, is_deleted := false, created_at := 5 }

/-- Concrete message in room r1 with timestamp 5. -/
def mA : Message :=
  { message_id := "a", room_id := "r1", content := "x", content_type := "text",
    sender_user_id := "u1", sender_display_name := "U1",
    is_edited := false, is_deleted := false, created_at := 5 }

/-- Concrete message in room r1 with timestamp 3, earlier than mA. -/
def mB : Message :=
  { message_id := "b", room_id := "r1", content := "y", content_type := "text",
    sender_user_id := "u1", sender_display_name := "U1",
    is_edited := false, is_deleted := false, created_at := 3 }

/-- Concrete message in room r2. -/
def mOther : Message :=
  { message_id := "m2", room_id := "r2", content := "z", content_type := "text",
    sender_user_id := "u2", sender_display_name := "U2",
    is_edited := false, is_deleted := false, created_at := 1 }

theorem msgLe_trans : ∀ a b c : Message, msgLe a b → msgLe b c → msgLe a c := by
  intro a b c hab hbc
  simp only [msgLe, decide_eq_true_eq] at *
  omega

theorem msgLe_total : ∀ a b : Message, msgLe a b || msgLe b a := by
  intro a b
  simp only [msgLe]
  by_cases h : a.created_at ≤ b.created_at
  · simp [h]
  · simp [h]
    omega

theorem pairwise_msgLe_iff {l : List Message} :
    l.Pairwise (fun a b => msgLe a b = true) ↔ SortedByCreatedAt l := by
  unfold SortedByCreatedAt
  constructor
  · exact fun h => h.imp (fun hab => by simpa [msgLe] using hab)
  · exact fun h => h.imp (fun hab => by simpa [msgLe] using hab)

/-- Claim C3: the pushed-message handlers append unconditionally; a message
whose id is already present is never merged into the existing entry, so a
second application of the same event grows the collection by one more entry.
The part_001 handler additionally re-sorts (a permutation of the appended
list) and the useSocket.tsx handler is a plain append. -/
theorem pushed_message_always_appends (prev : List Message) (data : Message) :
    (onMessage prev data).length = prev.length + 1 ∧
    (onMessage (onMessage prev data) data).length = prev.length + 2 ∧
    (onMessage prev data).Perm (prev ++ [data]) ∧
    onMessagePush prev data = prev ++ [data] := by
  refine ⟨?_, ?_, List.mergeSort_perm _ _, rfl⟩ <;> simp [onMessage]

/-- Claim C3 counterexample: applying the same pushed message twice to the
empty collection yields two entries, not one, so the collection size does
change on re-application and there is no upsert by id. -/
theorem pushed_message_not_idempotent_counterexample :
    (onMessage (onMessage [] m1) m1).length ≠ (onMessage [] m1).length := by
  simp [onMessage]

/-- Claim C5 (amended): a history batch replaces the whole message collection
with the batch as received, so every per-room view afterwards equals the view
of the batch alone; messages of other rooms held before the event are not
merged but discarded. -/
theorem history_batch_replaces_wholesale (prev batch : List Message) (room : String) :
    onMessages prev batch = batch ∧
    roomView (onMessages prev batch) room = roomView batch room :=
  ⟨rfl, rfl⟩

/-- Claim C5 counterexample: a batch for room r1 arriving while the collection
holds a message of room r2 erases the r2 subset instead of leaving it
unchanged. -/
theorem history_batch_clobbers_counterexample :
    roomView (onMessages [mOther] [mA]) ("r2") ≠ roomView [mOther] ("r2") := by
  decide

/-- Claim C7 (amended): every outbound operation invoked while not connected
emits nothing (rejected synchronously, no side effect toward the server, no
queuing); the room-dialect operations always report the rejection, while the
flat-dialect getMessages, getConversations and getOnlineUsers report it only
when their showError argument is true, whose source defaults are true, false
and false respectively. -/
theorem not_connected_commands_rejected (e1 e2 e3 : Bool) :
    (sendMessage false).emitted = none ∧ (sendMessage false).errorReported = true ∧
    (joinRoom false).emitted = none ∧ (joinRoom false).errorReported = true ∧
    (leaveRoom false).emitted = none ∧ (leaveRoom false).errorReported = true ∧
    (getMessages false).emitted = none ∧ (getMessages false).errorReported = true ∧
    (getRooms false).emitted = none ∧ (getRooms false).errorReported = true ∧
    (getOnlineUsers false).emitted = none ∧ (getOnlineUsers false).errorReported = true ∧
    (getMessagesFlat false e1).emitted = none ∧ (getMessagesFlat false e1).errorReported = e1 ∧
    (getConversations false e2).emitted = none ∧ (getConversations false e2).errorReported = e2 ∧
    (getOnlineUsersFlat false e3).emitted = none ∧ (getOnlineUsersFlat false e3).errorReported = e3 := by
  refine ⟨rfl, rfl, rfl, rfl, rfl, rfl, rfl, rfl, rfl, rfl, rfl, rfl, rfl, rfl, rfl, rfl, rfl, rfl⟩

/-- Claim C7 counterexample: the flat-dialect getConversations called while
disconnected with its source default showError value of false is dropped
silently, with no error reported to the caller. -/
theorem not_connected_silent_drop_counterexample :
    (getConversations false false).errorReported = false ∧
    (getConversations false false).emitted = none := by
  decide

/-- Claim C4 (amended): after each pushed-message event of the part_001
handler the collection, and hence every per-room view of it, is sorted
ascending by created_at; the sort is stable, so two messages with equal
created_at keep their arrival order. A history-batch event, however, installs
the batch exactly as received, so sortedness after a batch holds only when the
batch itself is sorted. -/
theorem push_sorted_batch_passthrough (prev : List Message) (data : Message)
    (batch : List Message) (room : String) (a b : Message)
    (hab : a.created_at = b.created_at) (hsub : List.Sublist [a, b] (prev ++ [data])) :
    SortedByCreatedAt (onMessage prev data) ∧
    SortedByCreatedAt (roomView (onMessage prev data) room) ∧
    List.Sublist [a, b] (onMessage prev data) ∧
    onMessages prev batch = batch := by
  have hs : (onMessage prev data).Pairwise (fun x y => msgLe x y = true) :=
    List.sorted_mergeSort msgLe_trans msgLe_total (prev ++ [data])
  refine ⟨pairwise_msgLe_iff.mp hs, ?_, ?_, rfl⟩
  · exact (pairwise_msgLe_iff.mp hs).sublist (List.filter_sublist _)
  · exact List.pair_sublist_mergeSort msgLe_trans msgLe_total (by simp [msgLe, hab]) hsub

/-- Claim C4 witness at a concrete input. -/
theorem push_sorted_batch_passthrough_witness :
    SortedByCreatedAt (onMessage [m1] m1) ∧
    SortedByCreatedAt (roomView (onMessage [m1] m1) ("r1")) ∧
    List.Sublist [m1, m1] (onMessage [m1] m1) ∧
    onMessages [m1] [] = [] :=
  push_sorted_batch_passthrough [m1] m1 [] ("r1") m1 m1 rfl (List.Sublist.refl _)

/-- Claim C4 counterexample: a history batch delivered out of order is stored
out of order, so the per-room view for r1 is not sorted ascending by
created_at right after that event. -/
theorem history_batch_unsorted_counterexample :
    ¬ SortedByCreatedAt (roomView (onMessages [] [mA, mB]) ("r1")) := by
  unfold SortedByCreatedAt
  decide

theorem user_online_nodup {prev : List OnlineUser} (h : presenceNodup prev)
    (d : OnlineUser) : presenceNodup (user_online prev d) := by
  unfold user_online
  cases hf : prev.find? (fun u => u.user_id == d.user_id) with
  | some u => exact h
  | none =>
    unfold presenceNodup at *
    rw [List.pairwise_append]
    refine ⟨h, List.pairwise_singleton _ _, ?_⟩
    intro a ha b hb
    simp only [List.mem_singleton] at hb
    subst hb
    have := List.find?_eq_none.mp hf a ha
    simpa using this

theorem user_offline_nodup {prev : List OnlineUser} (h : presenceNodup prev)
    (uid : String) : presenceNodup (user_offline prev uid) :=
  h.sublist (List.filter_sublist _)

theorem applyPresence_nodup {prev : List OnlineUser} (h : presenceNodup prev) :
    ∀ e, presenceNodup (applyPresence prev e)
  | PresenceEvent.online d => user_online_nodup h d
  | PresenceEvent.offline uid => user_offline_nodup h uid

theorem applyPresenceEvents_nodup (evs : List PresenceEvent) :
    ∀ prev : List OnlineUser, presenceNodup prev →
      presenceNodup (applyPresenceEvents prev evs) := by
  induction evs with
  | nil => exact fun prev h => h
  | cons e evs ih =>
    intro prev h
    have h1 : applyPresenceEvents prev (e :: evs) =
        applyPresenceEvents (applyPresence prev e) evs := by
      simp [applyPresenceEvents]
    rw [h1]
    exact ih _ (applyPresence_nodup h e)

/-- Claim C6: starting from a presence set with no duplicate user_id, any
sequence of user_online and user_offline deltas preserves that uniqueness; an
online delta whose user_id is already present returns the set unchanged, and
an offline delta for an absent user_id returns the set unchanged. -/
theorem presence_uniqueness (prev : List OnlineUser) (evs : List PresenceEvent)
    (h : presenceNodup prev) :
    presenceNodup (applyPresenceEvents prev evs) ∧
    (∀ d : OnlineUser, (prev.find? (fun u => u.user_id == d.user_id)).isSome →
      user_online prev d = prev) ∧
    (∀ uid : String, (∀ u ∈ prev, u.user_id ≠ uid) → user_offline prev uid = prev) := by
  refine ⟨applyPresenceEvents_nodup evs prev h, ?_, ?_⟩
  · intro d hd
    unfold user_online
    cases hf : prev.find? (fun u => u.user_id == d.user_id) with
    | some u => rfl
    | none => rw [hf] at hd; simp at hd
  · intro uid hu
    unfold user_offline
    rw [List.filter_eq_self]
    intro u hmem
    simpa using hu u hmem

/-- Claim C6 witness at a concrete input. -/
theorem presence_uniqueness_witness :
    presenceNodup (applyPresenceEvents [{ user_id := "u0", display_name := none }]
      [PresenceEvent.online { user_id := "u1", display_name := none },
       PresenceEvent.offline ("u2")]) :=
  (presence_uniqueness [{ user_id := "u0", display_name := none }]
    [PresenceEvent.online { user_id := "u1", display_name := none },
     PresenceEvent.offline ("u2")] (by unfold presenceNodup; decide)).1

/-- Claim C1 (amended): the part_001 connect returns immediately, changing no
state and opening no transport, whenever the socket is already connected or a
connection attempt is in progress, and two connect calls in succession open at
most one transport from any state. The connectWithApiKey variant of
useSocket.tsx, however, guards only on an already connected socket (and a
falsy apiKey); a call made while the Connecting flag is set but no transport
is connected does open a new transport, the guard on Connecting living in its
sole caller autoAuthenticate instead. -/
theorem connect_noop_when_connecting_or_connected (s t : SessionState)
    (h : s.socketConnected = true ∨ s.isConnecting = true) :
    sessionStep s SessionEvent.connectCall = s ∧
    (sessionRun t [SessionEvent.connectCall, SessionEvent.connectCall]).transportsOpened
      ≤ t.transportsOpened + 1 := by
  constructor
  · simp only [sessionStep]
    rcases h with h | h <;> simp [h]
  · simp only [sessionRun, List.foldl]
    by_cases h1 : (t.socketConnected || t.isConnecting) = true
    · simp [sessionStep, h1]
    · simp only [sessionStep, h1, if_neg, Bool.false_eq_true, if_false]
      simp

/-- Claim C1 witness at a concrete input. -/
theorem connect_noop_witness :
    sessionStep { socketExists := true, socketConnected := true, isConnecting := false,
                  reconnectTimeout := none, reconnectAttempts := 0, transportsOpened := 1 }
        SessionEvent.connectCall
      = { socketExists := true, socketConnected := true, isConnecting := false,
          reconnectTimeout := none, reconnectAttempts := 0, transportsOpened := 1 } :=
  (connect_noop_when_connecting_or_connected
    { socketExists := true, socketConnected := true, isConnecting := false,
      reconnectTimeout := none, reconnectAttempts := 0, transportsOpened := 1 }
    initialSessionState (Or.inl rfl)).1

/-- Claim C1 counterexample: connectWithApiKey called while the state is
Connecting (isConnecting set by autoAuthenticate, no transport yet) does not
return immediately; it opens a new transport. -/
theorem connect_while_connecting_counterexample :
    (connectWithApiKey
        { socketExists := false, socketConnected := false, isConnecting := true,
          transportsOpened := 0 } ("k1")).transportsOpened = 1 ∧
    ({ socketExists := false, socketConnected := false, isConnecting := true,
       transportsOpened := 0 } : RoomHookState).isConnecting = true := by
  decide

/-- Claim C2 (amended): every transport loss whose reason is not io client
disconnect schedules exactly one reconnection attempt by storing a fresh timer
with the fixed 3000 ms delay in the single timer slot; a successful connect
clears the pending timer; but a local disconnect call leaves the timer slot
untouched, so a disconnect before the timer fires does not prevent the
reconnection attempt, and a pending timer fires exactly one attempt. -/
theorem reconnect_timer_policy (s : SessionState) (reason : String)
    (h : reason ≠ "io client disconnect") :
    (sessionStep s (SessionEvent.transportDisconnect reason)).reconnectTimeout
      = some reconnectDelayMs ∧
    reconnectDelayMs = 3000 ∧
    (sessionStep s SessionEvent.connectSucceeds).reconnectTimeout = none ∧
    (sessionStep s SessionEvent.disconnectCall).reconnectTimeout = s.reconnectTimeout ∧
    (sessionStep s SessionEvent.reconnectTimerFires).reconnectAttempts
      = (if s.reconnectTimeout.isSome then s.reconnectAttempts + 1 else s.reconnectAttempts) := by
  refine ⟨?_, rfl, rfl, ?_, ?_⟩
  · simp only [sessionStep]
    rw [if_pos]
    simpa using h
  · simp only [sessionStep]
    split <;> rfl
  · simp only [sessionStep]
    cases hrt : s.reconnectTimeout <;> simp [hrt]

/-- Claim C2 witness at a concrete input. -/
theorem reconnect_timer_policy_witness :
    (sessionStep initialSessionState
        (SessionEvent.transportDisconnect ("transport close"))).reconnectTimeout
      = some reconnectDelayMs :=
  (reconnect_timer_policy initialSessionState ("transport close") (by decide)).1

/-- Claim C2 counterexample: after a successful connection is lost remotely, a
local disconnect call before the 3 second timer fires leaves the timer pending
(the timer slot still holds the 3000 ms timer), and when it fires one
reconnection attempt is performed anyway. -/
theorem reconnect_not_cancelled_counterexample :
    (sessionRun initialSessionState
      [SessionEvent.connectCall, SessionEvent.connectSucceeds,
       SessionEvent.transportDisconnect ("transport close"),
       SessionEvent.disconnectCall]).reconnectTimeout = some 3000 ∧
    (sessionRun initialSessionState
      [SessionEvent.connectCall, SessionEvent.connectSucceeds,
       SessionEvent.transportDisconnect ("transport close"),
       SessionEvent.disconnectCall,
       SessionEvent.reconnectTimerFires]).reconnectAttempts = 1 := by
  decide

/-- Claim C8 (amended): the token exchange of autoAuthenticate in
useSocket.tsx fails exactly when the response is not ok or its api_key field
is missing or empty, and on success returns the issued key; the standalone
authenticate of part_001 fails exactly when the response is not ok, and on an
ok response returns the api_key field as is, without error even when the field
is absent. -/
theorem credential_exchange_error_conditions (mk : String) (resp : LoginResponse) :
    isOkE (autoAuthenticateExchange (some mk) resp) = (resp.ok && jsTruthy resp.api_key) ∧
    (resp.ok = true → jsTruthy resp.api_key = true →
      autoAuthenticateExchange (some mk) resp = Except.ok (resp.api_key.getD "")) ∧
    isOkE (authenticate (some mk) resp) = resp.ok ∧
    (resp.ok = true → authenticate (some mk) resp = Except.ok resp.api_key) := by
  obtain ⟨ok, key⟩ := resp
  refine ⟨?_, ?_, ?_, ?_⟩
  · cases ok <;> cases hk : jsTruthy key <;>
      simp [autoAuthenticateExchange, isOkE, hk]
  · intro h1 h2
    simp only at h1 h2
    simp [autoAuthenticateExchange, h1, h2]
  · cases ok <;> simp [authenticate, isOkE]
  · intro h1
    simp only at h1
    simp [authenticate, h1]

/-- Claim C8 witness at a concrete input. -/
theorem credential_exchange_witness :
    autoAuthenticateExchange (some ("master")) { ok := true, api_key := some "k1" }
      = Except.ok "k1" :=
  (credential_exchange_error_conditions ("master")
    { ok := true, api_key := some "k1" }).2.1 rfl (by decide)

/-- Claim C8 counterexample: an ok response whose body lacks the api_key field
makes the part_001 authenticate succeed with an absent token instead of
failing with an AuthError. -/
theorem authenticate_missing_token_counterexample :
    authenticate (some ("master")) { ok := true, api_key := none } = Except.ok none := by
  rfl

/-- Claim C9 (amended): the ping effect is rerun exactly when the socket
identity in state changes; the rerun tears down the previous interval and
creates a new 30000 ms one only if the socket is already connected at that
moment, and each tick emits a probe only while the transport is connected. A
render in which the socket identity is unchanged, including one where the
connection state changes, leaves the interval exactly as it was, and a socket
that connects only after its effect ran never obtains an interval. -/
theorem ping_effect_semantics (acc : Bool) (pid : Option Nat) (r : RenderSnap)
    (rs : List RenderSnap) :
    pingAfterAux acc (some pid) (r :: rs)
      = pingAfterAux (if pid = r.sockId then acc else pingEffectRun r.sockId r.sockConn)
          (some r.sockId) rs ∧
    pingTickEmits r.sockConn = r.sockConn ∧
    pingIntervalDelayMs = 30000 := by
  refine ⟨?_, rfl, rfl⟩
  simp only [pingAfterAux]
  by_cases h : pid = r.sockId
  · simp [h]
  · simp [h, bne_iff_ne]

/-- Claim C9 counterexample: the render sequence of the normal connect flow,
where the socket is stored before its transport finishes connecting (mount
with no socket, then setSocket with a not yet connected socket, then the
connect handler marking it connected), ends Connected yet with no ping
interval live, so no probe is ever emitted while Connected. -/
theorem ping_interval_counterexample :
    pingIntervalAfter
      [{ sockId := none, sockConn := false },
       { sockId := some 1, sockConn := false },
       { sockId := some 1, sockConn := true }] = false ∧
    ([{ sockId := none, sockConn := false },
      { sockId := some 1, sockConn := false },
      { sockId := some 1, sockConn := true }] : List RenderSnap).getLast?.map
        RenderSnap.sockConn = some true := by
  decide

/-- Claim C10: reading the socket context outside a SocketProvider, where the
context value is undefined, makes useSocket throw; with a provider present the
hook returns the full context value unchanged, never an undefined or partial
one. -/
theorem useSocket_requires_provider (c : SocketContextType) :
    useSocket none = Except.error ("useSocket must be used within a SocketProvider") ∧
    useSocket (some c) = Except.ok c :=
  ⟨rfl, rfl⟩

end Helpdesk
